import Mathlib

/-
Shallow embedding of the report/signal engine of `src/analyzer.py`
(stock-analysis repository).

Modelling conventions:
* SQL tables are lists of rows; a table that errors on read is `none`
  (an `Option (List _)` models `pd.read_sql` raising inside/outside a
  `try`), while `some []` models a table that exists but is empty.
* Trade dates are integers (`ℤ`); `pd.Timedelta(days = n)` subtraction
  is integer subtraction.  A real date string is never falsy in Python,
  so `if max_date:` is modelled as `Option.isSome`.
* All numeric fields are rationals (`ℚ`), the exact-arithmetic shadow of
  IEEE doubles.  A pandas `NaN`/`inf` produced by `pct_change` is
  modelled as `none : Option ℚ`; every other field is total because the
  source fills it (`fillna(0)`, guarded divisions, `or 0`).
* `uncaught exception` in the bulk path is the `none` result of
  `get_full_analysis_report`; `some []` is the empty report.
-/

namespace StockAnalysis

set_option maxRecDepth 8000

/- Batteries marks the rational-number kernel operations `@[irreducible]`,
which blocks `decide`-style evaluation of concrete report rows; restore
the default transparency for them. -/
attribute [local semireducible] Rat.add Rat.mul Rat.sub Rat.inv

/-- Rows of the `stock_basic` instrument-reference table. -/
structure BasicRow where
  code : String
  name : String
  sector : String
  industry : String
  total_mv : ℚ
  float_mv : ℚ
  pe_ttm : ℚ
deriving DecidableEq, Repr

/-- Rows of the `daily_market` table (fields the analyzer reads). -/
structure DailyRow where
  code : String
  trade_date : ℤ
  close : ℚ
  turnover_rate : ℚ
deriving DecidableEq, Repr

/-- Rows of the `margin_data` table. -/
structure MarginRow where
  code : String
  trade_date : ℤ
  financing_buy : ℚ
  financing_balance : ℚ
  securities_sell : ℚ
  securities_balance : ℚ
  net_financing_buy : ℚ
deriving DecidableEq, Repr

/-- Rows of the `northbound_data` table; `net_inflow` is the cumulative
holding value (renamed `nb_hold_val` by the analyzer). -/
structure NbRow where
  code : String
  trade_date : ℤ
  net_inflow : ℚ
deriving DecidableEq, Repr

/-- Rows of the `main_fund_flow` table. -/
structure MainRow where
  code : String
  trade_date : ℤ
  main_net_inflow : ℚ
deriving DecidableEq, Repr

/-- A point-in-time snapshot of the five source tables.  `none` models a
table whose read raises (missing table / broken connection); `some rows`
a readable table. -/
structure Store where
  stock_basic : Option (List BasicRow)
  daily_market : Option (List DailyRow)
  margin_data : Option (List MarginRow)
  northbound_data : Option (List NbRow)
  main_fund_flow : Option (List MainRow)
deriving DecidableEq, Repr

/-! Generic pandas/SQL primitives. -/

/-- Insert a row into a date-sorted list (`sort_values` kernel). -/
def insDate (f : α → ℤ) (r : α) : List α → List α
  | [] => [r]
  | x :: xs => if f r < f x then r :: x :: xs else x :: insDate f r xs

/-- Sort a list of rows by date ascending (`sort_values('trade_date')`). -/
def sortOn (f : α → ℤ) : List α → List α
  | [] => []
  | x :: xs => insDate f x (sortOn f xs)

/-- Lexicographic code-point comparison of strings (Python `<`). -/
def strLtb : List Char → List Char → Bool
  | [], [] => false
  | [], _ :: _ => true
  | _ :: _, [] => false
  | a :: as, b :: bs =>
    if a < b then true else if b < a then false else strLtb as bs

/-- Insert into a sorted list of strings. -/
def insStr (r : String) : List String → List String
  | [] => [r]
  | x :: xs => if strLtb r.data x.data then r :: x :: xs else x :: insStr r xs

/-- Sort a list of strings ascending (Python `sorted`). -/
def sortStrs : List String → List String
  | [] => []
  | x :: xs => insStr x (sortStrs xs)

/-- The `WHERE trade_date >= a AND trade_date <= b` filter. -/
def windowFilter (f : α → ℤ) (a b : ℤ) (l : List α) : List α :=
  l.filter (fun r => decide (a ≤ f r) && decide (f r ≤ b))

/-- `SELECT MAX(trade_date)`: `none` on an empty table (SQL NULL). -/
def maxDate (f : α → ℤ) (l : List α) : Option ℤ :=
  l.foldl (fun acc r =>
    match acc with
    | none => some (f r)
    | some m => some (max m (f r))) none

/-- MAX-date of an optional table: a table whose read raises yields
`none`, like an empty one (the analyzer catches the exception). -/
def tableMax (f : α → ℤ) (t : Option (List α)) : Option ℤ :=
  match t with
  | none => none
  | some rows => maxDate f rows

/-- The per-table maxima actually collected by the freshness loop of
`get_latest_common_trade_date`, in table order, failed/empty tables
excluded. -/
def collectedMaxDates (s : Store) : List ℤ :=
  ([tableMax (fun r => r.trade_date) s.daily_market,
    tableMax (fun r => r.trade_date) s.margin_data,
    tableMax (fun r => r.trade_date) s.northbound_data,
    tableMax (fun r => r.trade_date) s.main_fund_flow]).filterMap id

/-- `analyzer.get_latest_common_trade_date`: loop the four core tables,
collect each table's MAX(trade_date) when it answers, return the
minimum of the collected dates, or `none` when nothing was collected. -/
def get_latest_common_trade_date (s : Store) : Option ℤ :=
  match collectedMaxDates s with
  | [] => none
  | d :: ds => some (ds.foldl min d)

/-! Python string primitives used by the targeted path's code cleaning. -/

/-- Python `str.isdigit` on a character list (ASCII model). -/
def pyIsdigit (l : List Char) : Bool :=
  !l.isEmpty && l.all Char.isDigit

/-- Python `str.strip`. -/
def pyStrip (s : String) : String :=
  String.mk ((((s.data.dropWhile Char.isWhitespace).reverse).dropWhile
    Char.isWhitespace).reverse)

/-- Python `str.zfill(6)`. -/
def zfill6 (s : String) : String :=
  if 6 ≤ s.data.length then s
  else String.mk (List.replicate (6 - s.data.length) ('0') ++ s.data)

/-- One iteration of the cleaning loop of `get_signals_for_codes`
(lines 191-202): `None` skipped, strip, empty skipped, pure-numeric
zero-padded, otherwise keep the embedded digits iff exactly six. -/
def cleanCode (c : Option String) : Option String :=
  match c with
  | none => none
  | some c0 =>
    let s := pyStrip c0
    if s.data.isEmpty then none
    else if pyIsdigit s.data then some (zfill6 s)
    else
      let digits := s.data.filter Char.isDigit
      if digits.length = 6 then some (String.mk digits) else none

/-- `sorted(set(cleaned))` over the cleaning loop's output. -/
def normalizeCodes (codes : List (Option String)) : List String :=
  sortStrs ((codes.filterMap cleanCode).dedup)

/-- Python `sub in s` substring test: prefix check. -/
def startsWithChars : List Char → List Char → Bool
  | _, [] => true
  | [], _ :: _ => false
  | a :: as, b :: bs => a == b && startsWithChars as bs

/-- Python `sub in s` substring test: occurrence anywhere. -/
def hasSubstrChars (s pat : List Char) : Bool :=
  match s with
  | [] => pat.isEmpty
  | _ :: rest => startsWithChars s pat || hasSubstrChars rest pat

/-- Python `sub in s` on strings. -/
def pyContains (s sub : String) : Bool :=
  hasSubstrChars s.data sub.data

/-! Python `round(x, n)` (banker's rounding, exact-rational model). -/

/-- Round to the nearest integer, ties to even. -/
def roundHalfEven (x : ℚ) : ℤ :=
  let f := x.floor
  let r := x - (f : ℚ)
  if r < 1/2 then f
  else if 1/2 < r then f + 1
  else if f % 2 = 0 then f else f + 1

/-- Python `round(x, 2)`. -/
def round2 (x : ℚ) : ℚ := (roundHalfEven (x * 100) : ℚ) / 100

/-- Python `round(x, 1)`. -/
def round1 (x : ℚ) : ℚ := (roundHalfEven (x * 10) : ℚ) / 10

/-! The fundamentals filter and signal classifier. -/

/-- The `info_dict` handed to `generate_signals_row` by both paths. -/
structure InfoDict where
  name : String
  total_mv : ℚ
  pe_ttm : ℚ
  float_mv : ℚ
  sector : String
  industry : String
deriving DecidableEq, Repr

/-- The fields `generate_signals_row` reads off its row argument (each
present in both paths' rows; `.get(_, 0)` never falls to its default). -/
structure SignalRow where
  financing_surge_pct : ℚ
  nb_inflow : ℚ
  net_financing_buy : ℚ
  close : ℚ
  close_20d_avg : ℚ
deriving DecidableEq, Repr

/-- `analyzer.check_fundamentals`: blacklist on an ST name, or on a
strictly positive total market value under 2e9. -/
def check_fundamentals (info : InfoDict) : Bool × String :=
  if pyContains info.name ("ST") then (false, "黑名单 (ST股)")
  else if 0 < info.total_mv ∧ info.total_mv < 2000000000 then
    (false, "黑名单 (微盘股)")
  else (true, "")

/-- Rule 1 condition (strong buy), line 157 of the source. -/
def rule1b (row : SignalRow) : Bool :=
  decide (row.close_20d_avg < row.close) &&
  decide (0 < row.net_financing_buy) && decide (0 < row.nb_inflow)

/-- Rule 2 condition (watch / bottom fishing), line 162. -/
def rule2b (row : SignalRow) : Bool :=
  decide (row.close < row.close_20d_avg) &&
  (decide (0 < row.net_financing_buy) || decide (0 < row.nb_inflow))

/-- Rule 3 condition (stop loss), line 167. -/
def rule3b (row : SignalRow) : Bool :=
  decide (row.close < row.close_20d_avg) &&
  (decide (row.net_financing_buy < 0) || decide (row.nb_inflow < 0))

/-- Rule 4 condition (capital flight), line 171. -/
def rule4b (row : SignalRow) : Bool :=
  decide (row.financing_surge_pct < -(3/1000 : ℚ))

/-- Rule 5 condition (uptrend), line 175. -/
def rule5b (row : SignalRow) : Bool :=
  decide (row.close_20d_avg < row.close)

/-- First-match-wins evaluation of an ordered (condition, label) list
with a default label; the spec's reading of the rule chain. -/
def firstMatch : List (Bool × String) → String → String
  | [], d => d
  | (b, l) :: rest, d => if b then l else firstMatch rest d

/-- The spec-side priority evaluator for the six non-blacklist rules. -/
def priorityLabel (row : SignalRow) : String :=
  firstMatch
    [(rule1b row, "🟢 强力买入"),
     (rule2b row, "🟡 关注(底部异动)"),
     (rule3b row, "⚫ 止损离场"),
     (rule4b row, "💸 资金出逃"),
     (rule5b row, "📈 趋势向上")]
    ("⚪️ 中性")

/-- `analyzer.generate_signals_row`: blacklist short-circuit, then the
fixed if-chain of rules 1-5, else neutral. -/
def generate_signals_row (row : SignalRow) (info : InfoDict) : String :=
  let fc := check_fundamentals info
  if fc.1 = false then "⚫ " ++ fc.2
  else if row.close_20d_avg < row.close ∧ 0 < row.net_financing_buy ∧
      0 < row.nb_inflow then "🟢 强力买入"
  else if row.close < row.close_20d_avg ∧
      (0 < row.net_financing_buy ∨ 0 < row.nb_inflow) then
    "🟡 关注(底部异动)"
  else if row.close < row.close_20d_avg ∧
      (row.net_financing_buy < 0 ∨ row.nb_inflow < 0) then "⚫ 止损离场"
  else if row.financing_surge_pct < -(3/1000 : ℚ) then "💸 资金出逃"
  else if row.close_20d_avg < row.close then "📈 趋势向上"
  else "⚪️ 中性"

/-! Per-code snapshot helpers shared verbatim by both paths (both use the
same pandas idioms: `sort_values(['code','trade_date'])`, per-code
`rolling(20, min_periods=1).mean()`, `groupby('code').tail(1)`, per-code
`diff()`, left join by code then `fillna(0)`). -/

/-- The rows of one code, date-sorted (a `groupby('code')` group). -/
def codeGroup (f : α → String) (g : α → ℤ) (c : String) (l : List α) :
    List α :=
  sortOn g (l.filter (fun r => f r == c))

/-- Close of the latest market bar of the group (`tail(1)`). -/
def lastClose (sd : List DailyRow) : ℚ :=
  ((sd.getLast?).map (fun r => r.close)).getD 0

/-- Turnover rate of the latest market bar of the group. -/
def lastTurnover (sd : List DailyRow) : ℚ :=
  ((sd.getLast?).map (fun r => r.turnover_rate)).getD 0

/-- Trade date of the latest market bar of the group. -/
def lastDate (sd : List DailyRow) : ℤ :=
  ((sd.getLast?).map (fun r => r.trade_date)).getD 0

/-- Value at the latest row of `rolling(20, min_periods=1).mean()` over
the group's closes: the mean of the last `min 20 n` closes. -/
def ma20At (sd : List DailyRow) : ℚ :=
  let cl := sd.map (fun r => r.close)
  let k := min 20 cl.length
  (cl.drop (cl.length - k)).sum / (k : ℚ)

/-- Value at the latest row of `groupby('code')['close'].pct_change()*100`:
`none` models the NaN of a first observation and the NaN/inf of a zero
previous close. -/
def chgAt (sd : List DailyRow) : Option ℚ :=
  match (sd.map (fun r => r.close)).reverse with
  | c :: p :: _ => if p = 0 then none else some ((c - p) / p * 100)
  | _ => none

/-- Latest derived foreign inflow of the group: per-code `diff()` at the
last row, `fillna(0)` for a single-row group or an absent code. -/
def nbInflowAt (ns : List NbRow) : ℚ :=
  match (ns.map (fun r => r.net_inflow)).reverse with
  | c :: p :: _ => c - p
  | _ => 0

/-- Latest cumulative foreign holding value of the group, map default 0
(`nb_hold_map.get(code, 0.0)`). -/
def nbHoldAt (ns : List NbRow) : ℚ :=
  ((ns.getLast?).map (fun r => r.net_inflow)).getD 0

/-- The latest margin row of a code inside the loaded margin window
(`sort_values` + `groupby('code').tail(1)` + join by code). -/
def marginLatest (marginW : List MarginRow) (c : String) : Option MarginRow :=
  (codeGroup (fun r => r.code) (fun r => r.trade_date) c marginW).getLast?

/-- Latest `net_financing_buy` for a code, 0 when the code has no margin
row in the window (left-join `fillna(0)`). -/
def snapNetFin (marginW : List MarginRow) (c : String) : ℚ :=
  ((marginLatest marginW c).map (fun r => r.net_financing_buy)).getD 0

/-- Latest `financing_balance` for a code, 0 when absent. -/
def snapFinBal (marginW : List MarginRow) (c : String) : ℚ :=
  ((marginLatest marginW c).map (fun r => r.financing_balance)).getD 0

/-- The latest main-fund-flow row of a code inside the window. -/
def mainLatest (mainW : List MainRow) (c : String) : Option MainRow :=
  (codeGroup (fun r => r.code) (fun r => r.trade_date) c mainW).getLast?

/-- Latest `main_net_inflow` for a code, 0 when absent. -/
def snapMainIn (mainW : List MainRow) (c : String) : ℚ :=
  ((mainLatest mainW c).map (fun r => r.main_net_inflow)).getD 0

/-- The date-sorted northbound group of a code inside the window. -/
def nbGroup (nbW : List NbRow) (c : String) : List NbRow :=
  codeGroup (fun r => r.code) (fun r => r.trade_date) c nbW

/-- The date-sorted daily group of a code inside the window. -/
def dailyGroup (dailyW : List DailyRow) (c : String) : List DailyRow :=
  codeGroup (fun r => r.code) (fun r => r.trade_date) c dailyW

/-- The sector remap applied by the bulk path (pass-through fallback). -/
def sector_map_app (s : String) : String :=
  if s = "Main Board" then "沪市主板"
  else if s = "STAR Market" then "科创板"
  else if s = "SZSE Main Board" then "深市主板"
  else if s = "ChiNext" then "创业板"
  else s

/-- First reference row of a code (`basic_df.loc[code]`, codes unique in
the data model). -/
def basicLookup (basicRows : List BasicRow) (c : String) : Option BasicRow :=
  basicRows.find? (fun b => b.code == c)

/-- One output row of the bulk report. -/
structure ReportRow where
  code : String
  name : String
  sector : String
  industry : String
  pe : ℚ
  mktCap : ℚ
  signal : String
  close : ℚ
  chgPct : Option ℚ
  turnover : ℚ
  financingBal : ℚ
  financingNet : ℚ
  nbHold : ℚ
  nbInflow : ℚ
  mainInflow : ℚ
  finMvPct : ℚ
  nbMvPct : ℚ
  finTmvPct : ℚ
  nbTmvPct : ℚ
  surgeScore : ℚ
deriving DecidableEq, Repr

/-- One output row of the targeted path. -/
structure SigRow where
  code : String
  signal : String
  surgeScore : ℚ
deriving DecidableEq, Repr

/-- The codes of the bulk latest snapshot, i.e. the distinct codes of the
loaded market window in sorted order (`groupby('code')` key order). -/
def snapshotCodes (dailyW : List DailyRow) : List String :=
  sortStrs ((dailyW.map (fun r => r.code)).dedup)

/-- The joined, normalized and classified snapshot row the bulk loop
appends for one code (lines 516-598 of the source). -/
def mkReportRow (info : BasicRow) (dailyW : List DailyRow)
    (marginW : List MarginRow) (mainW : List MainRow) (nbW : List NbRow)
    (c : String) : ReportRow :=
  let sd := dailyGroup dailyW c
  let close := lastClose sd
  let ma20 := ma20At sd
  let fin_net := snapNetFin marginW c
  let nbs := nbGroup nbW c
  let nb_inflow := nbInflowAt nbs
  let nb_hold := nbHoldAt nbs
  let surge := if 0 < info.float_mv then fin_net / info.float_mv else 0
  let infoD : InfoDict :=
    { name := info.name, total_mv := info.total_mv,
      pe_ttm := info.pe_ttm, float_mv := info.float_mv,
      sector := sector_map_app info.sector, industry := info.industry }
  let sig := generate_signals_row
    { financing_surge_pct := surge, nb_inflow := nb_inflow,
      net_financing_buy := fin_net, close := close,
      close_20d_avg := ma20 } infoD
  let float_mv := info.float_mv
  let total_mv := info.total_mv
  { code := c, name := info.name, sector := infoD.sector,
    industry := info.industry,
    pe := round1 info.pe_ttm,
    mktCap := round1 (info.total_mv / 100000000),
    signal := sig,
    close := round2 close,
    chgPct := (chgAt sd).map round2,
    turnover := round2 (lastTurnover sd),
    financingBal := round2 (snapFinBal marginW c / 100000000),
    financingNet := round2 (fin_net / 10000),
    nbHold := round2 (nb_hold / 100000000),
    nbInflow := round2 (nb_inflow / 10000),
    mainInflow := round2 (snapMainIn mainW c / 10000),
    finMvPct :=
      round2 (if 0 < float_mv then fin_net / float_mv * 100 else 0),
    nbMvPct :=
      round2 (if 0 < float_mv then nb_inflow / float_mv * 100 else 0),
    finTmvPct :=
      round2 (if 0 < total_mv then fin_net / total_mv * 100 else 0),
    nbTmvPct :=
      round2 (if 0 < total_mv then nb_inflow / total_mv * 100 else 0),
    surgeScore := round2 (surge * 1000) }

/-- Bulk loop body for one snapshot code (lines 509-598): skip codes
missing from the reference table, otherwise emit the snapshot row. -/
def buildRow? (basicRows : List BasicRow) (dailyW : List DailyRow)
    (marginW : List MarginRow) (mainW : List MainRow) (nbW : List NbRow)
    (c : String) : Option ReportRow :=
  match basicLookup basicRows c with
  | none => none
  | some info => some (mkReportRow info dailyW marginW mainW nbW c)

/-- `analyzer.get_full_analysis_report` over a store snapshot.  `none` is
an uncaught exception (only the unguarded `margin_data` bulk read can
raise one once the earlier guarded steps have succeeded); `some []` the
empty report. -/
def get_full_analysis_report (store : Store) : Option (List ReportRow) :=
  match store.stock_basic with
  | none => some []
  | some basicRows =>
    match store.daily_market with
    | none => some []
    | some dailyAll =>
      match maxDate (fun r => r.trade_date) dailyAll with
      | none => some []
      | some endD =>
        let startD := endD - 60
        let dailyW := windowFilter (fun r => r.trade_date) startD endD dailyAll
        match store.margin_data with
        | none => none
        | some marginAll =>
          let marginW :=
            windowFilter (fun r => r.trade_date) startD endD marginAll
          let mainW :=
            match store.main_fund_flow with
            | none => []
            | some l => windowFilter (fun r => r.trade_date) startD endD l
          let nbW :=
            match store.northbound_data with
            | none => []
            | some l => windowFilter (fun r => r.trade_date) startD endD l
          if dailyW.isEmpty then some []
          else
            some ((snapshotCodes dailyW).filterMap
              (buildRow? basicRows dailyW marginW mainW nbW))

/-- The reduced-shape row the targeted loop appends for one code
(lines 306-343 of the source). -/
def mkSigRow (info : BasicRow) (dailyWT : List DailyRow)
    (marginWT : List MarginRow) (nbWT : List NbRow) (c : String) : SigRow :=
  let sd := dailyGroup dailyWT c
  let close := lastClose sd
  let ma20 := ma20At sd
  let fin_net := snapNetFin marginWT c
  let surge := if 0 < info.float_mv then fin_net / info.float_mv else 0
  let nb_inflow := nbInflowAt (nbGroup nbWT c)
  let infoD : InfoDict :=
    { name := info.name, total_mv := info.total_mv,
      pe_ttm := info.pe_ttm, float_mv := info.float_mv,
      sector := info.sector, industry := info.industry }
  let sig := generate_signals_row
    { financing_surge_pct := surge, nb_inflow := nb_inflow,
      net_financing_buy := fin_net, close := close,
      close_20d_avg := ma20 } infoD
  { code := c, signal := sig, surgeScore := round2 (surge * 1000) }

/-- Targeted loop body for one cleaned code (lines 302-343): skip codes
missing from the reference slice or the market window, otherwise emit
the reduced row. -/
def buildSig? (basicF : List BasicRow) (dailyWT : List DailyRow)
    (marginWT : List MarginRow) (nbWT : List NbRow) (c : String) :
    Option SigRow :=
  match basicLookup basicF c with
  | none => none
  | some info =>
    if (dailyGroup dailyWT c).isEmpty then none
    else some (mkSigRow info dailyWT marginWT nbWT c)

/-- `analyzer.get_signals_for_codes` over a store snapshot.  All source
reads of this path are guarded (or provably cannot raise once the
guarded MAX-date query has succeeded), so it always returns a list. -/
def get_signals_for_codes (store : Store) (codes : List (Option String))
    (lookback_days : ℤ) : List SigRow :=
  if codes.isEmpty then []
  else
    let cleaned := normalizeCodes codes
    if cleaned.isEmpty then []
    else
      match store.stock_basic with
      | none => []
      | some basicAll =>
        let basicF := basicAll.filter (fun b => cleaned.contains b.code)
        if basicF.isEmpty then []
        else
          match store.daily_market with
          | none => []
          | some dailyAll =>
            match maxDate (fun r => r.trade_date) dailyAll with
            | none => []
            | some endD =>
              let lb := if lookback_days = 0 then (60 : ℤ) else lookback_days
              let startD := endD - lb
              let dailyWT :=
                (windowFilter (fun r => r.trade_date) startD endD
                  dailyAll).filter (fun r => cleaned.contains r.code)
              if dailyWT.isEmpty then []
              else
                let marginWT :=
                  match store.margin_data with
                  | none => []
                  | some l =>
                    (windowFilter (fun r => r.trade_date) startD endD
                      l).filter (fun r => cleaned.contains r.code)
                let nbWT :=
                  match store.northbound_data with
                  | none => []
                  | some l =>
                    (windowFilter (fun r => r.trade_date) startD endD
                      l).filter (fun r => cleaned.contains r.code)
                cleaned.filterMap (buildSig? basicF dailyWT marginWT nbWT)

/-! Concrete store snapshots used to instantiate the theorems. -/

/-- Instrument fixture: large cap, clean name. -/
def basicPufa : BasicRow :=
  { code := "600000", name := "浦发银行", sector := "Main Board",
    industry := "银行", total_mv := 3000000000, float_mv := 1000000000,
    pe_ttm := 11/2 }

/-- A store whose margin data lags the market data by one day. -/
def c1store : Store :=
  { stock_basic := some [basicPufa],
    daily_market := some
      [{ code := "600000", trade_date := 100, close := 10, turnover_rate := 2 },
       { code := "600000", trade_date := 101, close := 11, turnover_rate := 3 }],
    margin_data := some
      [{ code := "600000", trade_date := 100, financing_buy := 1,
         financing_balance := 2, securities_sell := 3,
         securities_balance := 4, net_financing_buy := 5000000 }],
    northbound_data := some
      [{ code := "600000", trade_date := 99, net_inflow := 7 },
       { code := "600000", trade_date := 100, net_inflow := 9 }],
    main_fund_flow := some
      [{ code := "600000", trade_date := 100, main_net_inflow := 44440 }] }

/-- The bulk report row `c1store` produces. -/
def c1row : ReportRow :=
  { code := "600000", name := "浦发银行", sector := "沪市主板",
    industry := "银行", pe := 11/2, mktCap := 30, signal := "🟢 强力买入",
    close := 11, chgPct := some 10, turnover := 3, financingBal := 0,
    financingNet := 500, nbHold := 0, nbInflow := 0, mainInflow := 111/25,
    finMvPct := 1/2, nbMvPct := 0, finTmvPct := 17/100, nbTmvPct := 0,
    surgeScore := 5 }

/-- The targeted row `c1store` produces for code 600000. -/
def c1sig : SigRow :=
  { code := "600000", signal := "🟢 强力买入", surgeScore := 5 }

/-- Instrument fixture for the staggered-dates store. -/
def c2basic : BasicRow :=
  { code := "000001", name := "平安银行", sector := "SZSE Main Board",
    industry := "银行", total_mv := 5000000000,
    float_mv := 10000000000, pe_ttm := 8 }

/-- Market bars of the staggered-dates store (latest date 101). -/
def c2daily : List DailyRow :=
  [{ code := "000001", trade_date := 100, close := 10, turnover_rate := 1 },
   { code := "000001", trade_date := 101, close := 12, turnover_rate := 1 }]

/-- The latest margin row of the staggered-dates store: dated 95, six
days before the latest market bar. -/
def c2margin95 : MarginRow :=
  { code := "000001", trade_date := 95, financing_buy := 0,
    financing_balance := 22, securities_sell := 0,
    securities_balance := 0, net_financing_buy := 70000 }

/-- Margin rows of the staggered-dates store. -/
def c2margin : List MarginRow :=
  [{ code := "000001", trade_date := 90, financing_buy := 0,
     financing_balance := 11, securities_sell := 0,
     securities_balance := 0, net_financing_buy := 1111 },
   c2margin95]

/-- The latest foreign-holding row of the staggered-dates store. -/
def c2nb94 : NbRow :=
  { code := "000001", trade_date := 94, net_inflow := 800000000 }

/-- Foreign-holding rows of the staggered-dates store. -/
def c2nb : List NbRow :=
  [{ code := "000001", trade_date := 93, net_inflow := 500000000 }, c2nb94]

/-- The single main-fund-flow row of the staggered-dates store. -/
def c2main96 : MainRow :=
  { code := "000001", trade_date := 96, main_net_inflow := 50000 }

/-- A store where every funding source's latest row predates the latest
market bar, with distinct per-code dates in every table. -/
def c2store : Store :=
  { stock_basic := some [c2basic],
    daily_market := some c2daily,
    margin_data := some c2margin,
    northbound_data := some c2nb,
    main_fund_flow := some [c2main96] }

/-- The bulk report row `c2store` produces. -/
def c2row : ReportRow :=
  { code := "000001", name := "平安银行", sector := "深市主板",
    industry := "银行", pe := 8, mktCap := 50, signal := "🟢 强力买入",
    close := 12, chgPct := some 20, turnover := 1, financingBal := 0,
    financingNet := 7, nbHold := 8, nbInflow := 30000, mainInflow := 5,
    finMvPct := 0, nbMvPct := 3, finTmvPct := 0, nbTmvPct := 6,
    surgeScore := 1/100 }

/-- The targeted row `c2store` produces for code 000001. -/
def c2sig : SigRow :=
  { code := "000001", signal := "🟢 强力买入", surgeScore := 1/100 }

/-- Row fixture with opposite-sign fund flows below the MA20. -/
def c4row : SignalRow :=
  { financing_surge_pct := 0, nb_inflow := -1, net_financing_buy := 1,
    close := 1, close_20d_avg := 2 }

/-- Instrument fixture that passes the fundamentals filter. -/
def c4info : InfoDict :=
  { name := "平安银行", total_mv := 3000000000, pe_ttm := 5,
    float_mv := 1000000000, sector := "Main Board", industry := "银行" }

/-- A store holding a single market bar for its single instrument: the
percent-change of that bar is pandas NaN. -/
def c6store : Store :=
  { stock_basic := some [basicPufa],
    daily_market := some
      [{ code := "600000", trade_date := 100, close := 10, turnover_rate := 2 }],
    margin_data := some [],
    northbound_data := some [],
    main_fund_flow := some [] }

/-- The bulk report row `c6store` produces: `chgPct = none` is NaN. -/
def c6row : ReportRow :=
  { code := "600000", name := "浦发银行", sector := "沪市主板",
    industry := "银行", pe := 11/2, mktCap := 30, signal := "⚪️ 中性",
    close := 10, chgPct := none, turnover := 2, financingBal := 0,
    financingNet := 0, nbHold := 0, nbInflow := 0, mainInflow := 0,
    finMvPct := 0, nbMvPct := 0, finTmvPct := 0, nbTmvPct := 0,
    surgeScore := 0 }

/-- Instrument fixture with zero float and total market value. -/
def c6wbasic : BasicRow :=
  { code := "600001", name := "某退市股", sector := "Main Board",
    industry := "综合", total_mv := 0, float_mv := 0, pe_ttm := 0 }

/-- An instrument whose market values are not strictly positive. -/
def c6wstore : Store :=
  { stock_basic := some [c6wbasic],
    daily_market := some
      [{ code := "600001", trade_date := 50, close := 3, turnover_rate := 1 },
       { code := "600001", trade_date := 51, close := 4, turnover_rate := 1 }],
    margin_data := some
      [{ code := "600001", trade_date := 51, financing_buy := 5,
         financing_balance := 6, securities_sell := 7,
         securities_balance := 8, net_financing_buy := 90000 }],
    northbound_data := some [],
    main_fund_flow := some [] }

/-- The bulk report row `c6wstore` produces: every market-value ratio is
guarded to zero. -/
def c6wrow : ReportRow :=
  { code := "600001", name := "某退市股", sector := "沪市主板",
    industry := "综合", pe := 0, mktCap := 0, signal := "📈 趋势向上",
    close := 4, chgPct := some (3333/100), turnover := 1,
    financingBal := 0, financingNet := 9, nbHold := 0, nbInflow := 0,
    mainInflow := 0, finMvPct := 0, nbMvPct := 0, finTmvPct := 0,
    nbTmvPct := 0, surgeScore := 0 }

/-- A store whose margin table errors on read while market and reference
data are present and non-empty. -/
def c7store : Store :=
  { stock_basic := some [basicPufa],
    daily_market := some
      [{ code := "600000", trade_date := 100, close := 10, turnover_rate := 2 }],
    margin_data := none,
    northbound_data := some [],
    main_fund_flow := some [] }

/-- A store whose market-bar table exists but is empty. -/
def c7wstore : Store :=
  { stock_basic := some [basicPufa],
    daily_market := some [],
    margin_data := some [],
    northbound_data := none,
    main_fund_flow := none }

/-- Micro-cap instrument: 1.5e9 total market value, no ST marker. -/
def c8info : InfoDict :=
  { name := "贵州茅台", total_mv := 1500000000, pe_ttm := 30,
    float_mv := 1200000000, sector := "Main Board", industry := "白酒" }

/-- A bullish row (would be strong-buy absent the blacklist). -/
def c8row : SignalRow :=
  { financing_surge_pct := 1, nb_inflow := 1, net_financing_buy := 1,
    close := 3, close_20d_avg := 1 }

/-- A bearish row (would be stop-loss absent the blacklist). -/
def c8rowB : SignalRow :=
  { financing_surge_pct := -1, nb_inflow := -5, net_financing_buy := -2,
    close := 1, close_20d_avg := 9 }

/-- A store with staggered per-table maxima and one excluded table: the
margin table exists but is empty, so its MAX date is SQL NULL. -/
def c9store : Store :=
  { stock_basic := some [],
    daily_market := some
      [{ code := "600000", trade_date := 101, close := 1, turnover_rate := 1 },
       { code := "600000", trade_date := 99, close := 1, turnover_rate := 1 }],
    margin_data := some [],
    northbound_data := some
      [{ code := "600000", trade_date := 99, net_inflow := 1 }],
    main_fund_flow := some
      [{ code := "600000", trade_date := 100, main_net_inflow := 1 }] }

/-- A store with a market bar for a code that the reference table does
not know, next to a fully-referenced code. -/
def c10store : Store :=
  { stock_basic := some [basicPufa],
    daily_market := some
      [{ code := "600000", trade_date := 100, close := 10, turnover_rate := 2 },
       { code := "688001", trade_date := 100, close := 55, turnover_rate := 9 }],
    margin_data := some [],
    northbound_data := some [],
    main_fund_flow := some [] }

/-- The single bulk report row `c10store` produces: the unreferenced
code 688001 yields no row at all. -/
def c10row : ReportRow :=
  { code := "600000", name := "浦发银行", sector := "沪市主板",
    industry := "银行", pe := 11/2, mktCap := 30, signal := "⚪️ 中性",
    close := 10, chgPct := none, turnover := 2, financingBal := 0,
    financingNet := 0, nbHold := 0, nbInflow := 0, mainInflow := 0,
    finMvPct := 0, nbMvPct := 0, finTmvPct := 0, nbTmvPct := 0,
    surgeScore := 0 }

/-- The single targeted row `c10store` produces when asked for both
codes. -/
def c10sig : SigRow :=
  { code := "600000", signal := "⚪️ 中性", surgeScore := 0 }

/-! General lemmas about the embedded pandas primitives -/

theorem insDate_ne_nil (f : α → ℤ) (r : α) (l : List α) :
    insDate f r l ≠ [] := by
  cases l with
  | nil => simp [insDate]
  | cons x xs =>
    simp only [insDate]
    split <;> simp

theorem mem_insDate {f : α → ℤ} {r x : α} {l : List α} :
    x ∈ insDate f r l ↔ x = r ∨ x ∈ l := by
  induction l with
  | nil => simp [insDate]
  | cons a t ih =>
    simp only [insDate]
    split
    · simp [List.mem_cons]
    · simp only [List.mem_cons, ih]
      tauto

theorem mem_sortOn {f : α → ℤ} {x : α} {l : List α} :
    x ∈ sortOn f l ↔ x ∈ l := by
  induction l with
  | nil => simp [sortOn]
  | cons a t ih => simp [sortOn, mem_insDate, ih]

theorem sortOn_eq_nil {f : α → ℤ} {l : List α} :
    sortOn f l = [] ↔ l = [] := by
  cases l with
  | nil => simp [sortOn]
  | cons a t => simp [sortOn, insDate_ne_nil]

theorem getLast?_cons_ne (a : α) (l : List α) (h : l ≠ []) :
    (a :: l).getLast? = l.getLast? := by
  cases l with
  | nil => exact absurd rfl h
  | cons b t => exact List.getLast?_cons_cons

theorem insDate_getLast_lt {f : α → ℤ} {m x : α} (hx : f x < f m) :
    ∀ L : List α, L.getLast? = some m → (insDate f x L).getLast? = some m := by
  intro L
  induction L with
  | nil => simp
  | cons a t ih =>
    cases t with
    | nil =>
      intro h
      simp only [List.getLast?_singleton, Option.some.injEq] at h
      subst h
      simp only [insDate]
      rw [if_pos hx]
      simp [List.getLast?]
    | cons b t2 =>
      intro h
      rw [List.getLast?_cons_cons] at h
      rw [insDate]
      split
      · rw [getLast?_cons_ne _ _ (by simp), List.getLast?_cons_cons]
        exact h
      · rw [getLast?_cons_ne _ _ (insDate_ne_nil f x (b :: t2))]
        exact ih h

theorem insDate_getLast_ge {f : α → ℤ} {x : α} :
    ∀ L : List α, (∀ y ∈ L, ¬ f x < f y) →
      (insDate f x L).getLast? = some x := by
  intro L
  induction L with
  | nil => simp [insDate, List.getLast?]
  | cons a t ih =>
    intro h
    simp only [insDate]
    rw [if_neg (h a (by simp))]
    rw [getLast?_cons_ne _ _ (insDate_ne_nil f x t)]
    exact ih (fun y hy => h y (by simp [hy]))

theorem sortOn_getLast_max {f : α → ℤ} :
    ∀ (l : List α) (m : α), m ∈ l → (∀ x ∈ l, x = m ∨ f x < f m) →
      (sortOn f l).getLast? = some m := by
  intro l
  induction l with
  | nil => intro m hm; simp at hm
  | cons x xs ih =>
    intro m hm hmax
    simp only [sortOn]
    by_cases hmem : m ∈ xs
    · have ihh := ih m hmem (fun y hy => hmax y (List.mem_cons_of_mem x hy))
      rcases hmax x (List.mem_cons_self x xs) with hxm | hlt
      · subst hxm
        apply insDate_getLast_ge
        intro y hy
        rcases hmax y (List.mem_cons_of_mem x (mem_sortOn.mp hy)) with h | h
        · subst h; exact lt_irrefl _
        · exact not_lt_of_gt h
      · exact insDate_getLast_lt hlt _ ihh
    · have hxm : x = m := by
        rcases List.mem_cons.mp hm with h | h
        · exact h.symm
        · exact absurd h hmem
      subst hxm
      apply insDate_getLast_ge
      intro y hy
      have hy2 := mem_sortOn.mp hy
      rcases hmax y (List.mem_cons_of_mem x hy2) with h | h
      · subst h; exact absurd hy2 hmem
      · exact not_lt_of_gt h

theorem codeGroup_getLast_max {α : Type} (codeOf : α → String) (g : α → ℤ)
    (c : String) (l : List α) (m : α) (hm : m ∈ l) (hmc : codeOf m = c)
    (hmax : ∀ x ∈ l, codeOf x = c → x = m ∨ g x < g m) :
    (codeGroup codeOf g c l).getLast? = some m := by
  unfold codeGroup
  apply sortOn_getLast_max
  · exact List.mem_filter.mpr ⟨hm, by simp [hmc]⟩
  · intro x hx
    have hx2 := List.mem_filter.mp hx
    exact hmax x hx2.1 (by simpa using hx2.2)

theorem codeGroup_eq_nil {α : Type} (codeOf : α → String) (g : α → ℤ)
    (c : String) (l : List α) (h : ∀ x ∈ l, codeOf x ≠ c) :
    codeGroup codeOf g c l = [] := by
  unfold codeGroup
  rw [sortOn_eq_nil]
  rw [List.filter_eq_nil_iff]
  intro a ha
  simpa using h a ha

theorem filter_code_filter_contains {α : Type} (codeOf : α → String)
    (cs : List String) (c : String) (hc : cs.contains c = true)
    (l : List α) :
    (l.filter (fun r => cs.contains (codeOf r))).filter
        (fun r => codeOf r == c) =
      l.filter (fun r => codeOf r == c) := by
  have hcmem : c ∈ cs := by simpa using hc
  rw [List.filter_filter]
  apply List.filter_congr
  intro a _
  by_cases h1 : codeOf a = c
  · simp [h1, hcmem]
  · simp [h1]

theorem basicLookup_filter_contains (cs : List String) (c : String)
    (hc : cs.contains c = true) (l : List BasicRow) :
    basicLookup (l.filter (fun b => cs.contains b.code)) c =
      basicLookup l c := by
  have hcmem : c ∈ cs := by simpa using hc
  induction l with
  | nil => rfl
  | cons hd tl ih =>
    by_cases h1 : hd.code = c
    · have h2 : cs.contains hd.code = true := by
        rw [h1]; exact hc
      unfold basicLookup
      rw [List.filter_cons, if_pos h2]
      rw [List.find?_cons_of_pos _ (by simp [h1]),
        List.find?_cons_of_pos _ (by simp [h1])]
    · unfold basicLookup
      cases h2 : cs.contains hd.code with
      | true =>
        rw [List.filter_cons, if_pos h2]
        rw [List.find?_cons_of_neg _ (by simp [h1]),
          List.find?_cons_of_neg _ (by simp [h1])]
        exact ih
      | false =>
        rw [List.filter_cons, if_neg (by simpa using h2),
          List.find?_cons_of_neg _ (by simp [h1])]
        exact ih

theorem codeGroup_filter_contains {α : Type} (codeOf : α → String)
    (g : α → ℤ) (cs : List String) (c : String)
    (hc : cs.contains c = true) (l : List α) :
    codeGroup codeOf g c (l.filter (fun r => cs.contains (codeOf r))) =
      codeGroup codeOf g c l := by
  unfold codeGroup
  rw [filter_code_filter_contains codeOf cs c hc l]

/-! Structural lemmas about the two report paths -/

theorem basicLookup_eq_some {l : List BasicRow} {c : String} {b : BasicRow}
    (h : basicLookup l c = some b) : b ∈ l ∧ b.code = c := by
  unfold basicLookup at h
  refine ⟨List.mem_of_find?_eq_some h, ?_⟩
  have h2 := List.find?_some h
  simpa using h2

theorem mkReportRow_code (info : BasicRow) (dailyW : List DailyRow)
    (marginW : List MarginRow) (mainW : List MainRow) (nbW : List NbRow)
    (c : String) : (mkReportRow info dailyW marginW mainW nbW c).code = c :=
  rfl

theorem mkReportRow_signal (info : BasicRow) (dailyW : List DailyRow)
    (marginW : List MarginRow) (mainW : List MainRow) (nbW : List NbRow)
    (c : String) :
    (mkReportRow info dailyW marginW mainW nbW c).signal =
      generate_signals_row
        { financing_surge_pct :=
            if 0 < info.float_mv then snapNetFin marginW c / info.float_mv
            else 0,
          nb_inflow := nbInflowAt (nbGroup nbW c),
          net_financing_buy := snapNetFin marginW c,
          close := lastClose (dailyGroup dailyW c),
          close_20d_avg := ma20At (dailyGroup dailyW c) }
        { name := info.name, total_mv := info.total_mv,
          pe_ttm := info.pe_ttm, float_mv := info.float_mv,
          sector := sector_map_app info.sector,
          industry := info.industry } :=
  rfl

theorem mkReportRow_surgeScore (info : BasicRow) (dailyW : List DailyRow)
    (marginW : List MarginRow) (mainW : List MainRow) (nbW : List NbRow)
    (c : String) :
    (mkReportRow info dailyW marginW mainW nbW c).surgeScore =
      round2 ((if 0 < info.float_mv
        then snapNetFin marginW c / info.float_mv else 0) * 1000) :=
  rfl

theorem mkReportRow_financingNet (info : BasicRow) (dailyW : List DailyRow)
    (marginW : List MarginRow) (mainW : List MainRow) (nbW : List NbRow)
    (c : String) :
    (mkReportRow info dailyW marginW mainW nbW c).financingNet =
      round2 (snapNetFin marginW c / 10000) :=
  rfl

theorem mkReportRow_mainInflow (info : BasicRow) (dailyW : List DailyRow)
    (marginW : List MarginRow) (mainW : List MainRow) (nbW : List NbRow)
    (c : String) :
    (mkReportRow info dailyW marginW mainW nbW c).mainInflow =
      round2 (snapMainIn mainW c / 10000) :=
  rfl

theorem mkReportRow_nbHold (info : BasicRow) (dailyW : List DailyRow)
    (marginW : List MarginRow) (mainW : List MainRow) (nbW : List NbRow)
    (c : String) :
    (mkReportRow info dailyW marginW mainW nbW c).nbHold =
      round2 (nbHoldAt (nbGroup nbW c) / 100000000) :=
  rfl

theorem mkReportRow_nbInflow (info : BasicRow) (dailyW : List DailyRow)
    (marginW : List MarginRow) (mainW : List MainRow) (nbW : List NbRow)
    (c : String) :
    (mkReportRow info dailyW marginW mainW nbW c).nbInflow =
      round2 (nbInflowAt (nbGroup nbW c) / 10000) :=
  rfl

theorem mkReportRow_finMvPct (info : BasicRow) (dailyW : List DailyRow)
    (marginW : List MarginRow) (mainW : List MainRow) (nbW : List NbRow)
    (c : String) :
    (mkReportRow info dailyW marginW mainW nbW c).finMvPct =
      round2 (if 0 < info.float_mv
        then snapNetFin marginW c / info.float_mv * 100 else 0) :=
  rfl

theorem mkReportRow_nbMvPct (info : BasicRow) (dailyW : List DailyRow)
    (marginW : List MarginRow) (mainW : List MainRow) (nbW : List NbRow)
    (c : String) :
    (mkReportRow info dailyW marginW mainW nbW c).nbMvPct =
      round2 (if 0 < info.float_mv
        then nbInflowAt (nbGroup nbW c) / info.float_mv * 100 else 0) :=
  rfl

theorem mkReportRow_finTmvPct (info : BasicRow) (dailyW : List DailyRow)
    (marginW : List MarginRow) (mainW : List MainRow) (nbW : List NbRow)
    (c : String) :
    (mkReportRow info dailyW marginW mainW nbW c).finTmvPct =
      round2 (if 0 < info.total_mv
        then snapNetFin marginW c / info.total_mv * 100 else 0) :=
  rfl

theorem mkReportRow_nbTmvPct (info : BasicRow) (dailyW : List DailyRow)
    (marginW : List MarginRow) (mainW : List MainRow) (nbW : List NbRow)
    (c : String) :
    (mkReportRow info dailyW marginW mainW nbW c).nbTmvPct =
      round2 (if 0 < info.total_mv
        then nbInflowAt (nbGroup nbW c) / info.total_mv * 100 else 0) :=
  rfl

theorem mkSigRow_code (info : BasicRow) (dailyWT : List DailyRow)
    (marginWT : List MarginRow) (nbWT : List NbRow) (c : String) :
    (mkSigRow info dailyWT marginWT nbWT c).code = c :=
  rfl

theorem mkSigRow_signal (info : BasicRow) (dailyWT : List DailyRow)
    (marginWT : List MarginRow) (nbWT : List NbRow) (c : String) :
    (mkSigRow info dailyWT marginWT nbWT c).signal =
      generate_signals_row
        { financing_surge_pct :=
            if 0 < info.float_mv then snapNetFin marginWT c / info.float_mv
            else 0,
          nb_inflow := nbInflowAt (nbGroup nbWT c),
          net_financing_buy := snapNetFin marginWT c,
          close := lastClose (dailyGroup dailyWT c),
          close_20d_avg := ma20At (dailyGroup dailyWT c) }
        { name := info.name, total_mv := info.total_mv,
          pe_ttm := info.pe_ttm, float_mv := info.float_mv,
          sector := info.sector, industry := info.industry } :=
  rfl

theorem mkSigRow_surgeScore (info : BasicRow) (dailyWT : List DailyRow)
    (marginWT : List MarginRow) (nbWT : List NbRow) (c : String) :
    (mkSigRow info dailyWT marginWT nbWT c).surgeScore =
      round2 ((if 0 < info.float_mv
        then snapNetFin marginWT c / info.float_mv else 0) * 1000) :=
  rfl

theorem buildRow?_elim {basicRows : List BasicRow} {dailyW : List DailyRow}
    {marginW : List MarginRow} {mainW : List MainRow} {nbW : List NbRow}
    {c : String} {r : ReportRow}
    (h : buildRow? basicRows dailyW marginW mainW nbW c = some r) :
    ∃ info, basicLookup basicRows c = some info ∧
      r = mkReportRow info dailyW marginW mainW nbW c := by
  unfold buildRow? at h
  cases hb : basicLookup basicRows c with
  | none => rw [hb] at h; cases h
  | some info =>
    rw [hb] at h
    exact ⟨info, rfl, (Option.some.inj h).symm⟩

theorem buildSig?_elim {basicF : List BasicRow} {dailyWT : List DailyRow}
    {marginWT : List MarginRow} {nbWT : List NbRow} {c : String}
    {sr : SigRow}
    (h : buildSig? basicF dailyWT marginWT nbWT c = some sr) :
    ∃ info, basicLookup basicF c = some info ∧
      (dailyGroup dailyWT c).isEmpty = false ∧
      sr = mkSigRow info dailyWT marginWT nbWT c := by
  unfold buildSig? at h
  cases hb : basicLookup basicF c with
  | none => rw [hb] at h; cases h
  | some info =>
    rw [hb] at h
    cases hemp : (dailyGroup dailyWT c).isEmpty with
    | true => simp [hemp] at h
    | false =>
      simp only [hemp, Bool.false_eq_true, if_false, Option.some.injEq] at h
      exact ⟨info, rfl, rfl, h.symm⟩

/-- Anything produced by the bulk path comes from `buildRow?` at a code
of the loaded market window, with all guarded reads having succeeded. -/
theorem bulk_mem_elim {store : Store} {rows : List ReportRow}
    {r : ReportRow} (hb : get_full_analysis_report store = some rows)
    (hr : r ∈ rows) :
    ∃ basicRows dailyAll marginAll endD c,
      store.stock_basic = some basicRows ∧
      store.daily_market = some dailyAll ∧
      store.margin_data = some marginAll ∧
      maxDate (fun x => x.trade_date) dailyAll = some endD ∧
      c ∈ snapshotCodes
        (windowFilter (fun x => x.trade_date) (endD - 60) endD dailyAll) ∧
      buildRow? basicRows
        (windowFilter (fun x => x.trade_date) (endD - 60) endD dailyAll)
        (windowFilter (fun x => x.trade_date) (endD - 60) endD marginAll)
        (match store.main_fund_flow with
          | none => []
          | some l => windowFilter (fun x => x.trade_date) (endD - 60) endD l)
        (match store.northbound_data with
          | none => []
          | some l => windowFilter (fun x => x.trade_date) (endD - 60) endD l)
        c = some r := by
  obtain ⟨sb, dm, mg, nbo, mf⟩ := store
  cases sb with
  | none =>
    simp only [get_full_analysis_report] at hb
    have hrows : rows = [] := (Option.some.inj hb).symm
    subst hrows
    cases hr
  | some basicRows =>
  cases dm with
  | none =>
    simp only [get_full_analysis_report] at hb
    have hrows : rows = [] := (Option.some.inj hb).symm
    subst hrows
    cases hr
  | some dailyAll =>
  simp only [get_full_analysis_report] at hb
  cases hmax : maxDate (fun r => r.trade_date) dailyAll with
  | none =>
    rw [hmax] at hb
    have hrows : rows = [] := (Option.some.inj hb).symm
    subst hrows
    cases hr
  | some endD =>
  rw [hmax] at hb
  cases mg with
  | none => simp at hb
  | some marginAll =>
  simp only at hb
  split at hb
  · have hrows : rows = [] := (Option.some.inj hb).symm
    subst hrows
    cases hr
  · have hrows : rows = _ := (Option.some.inj hb).symm
    subst hrows
    rcases List.mem_filterMap.mp hr with ⟨c, hcmem, hcbuild⟩
    exact ⟨basicRows, dailyAll, marginAll, endD, c, rfl, rfl, rfl, hmax,
      hcmem, hcbuild⟩

/-- Anything produced by the targeted path comes from `buildSig?` at a
cleaned code, against the code-restricted windowed tables. -/
theorem targeted_mem_elim {store : Store} {codes : List (Option String)}
    {lb : ℤ} {sr : SigRow}
    (hs : sr ∈ get_signals_for_codes store codes lb) :
    ∃ basicAll dailyAll endD c,
      store.stock_basic = some basicAll ∧
      store.daily_market = some dailyAll ∧
      maxDate (fun x => x.trade_date) dailyAll = some endD ∧
      c ∈ normalizeCodes codes ∧
      buildSig?
        (basicAll.filter (fun b => (normalizeCodes codes).contains b.code))
        ((windowFilter (fun x => x.trade_date)
            (endD - (if lb = 0 then 60 else lb)) endD dailyAll).filter
          (fun x => (normalizeCodes codes).contains x.code))
        (match store.margin_data with
          | none => []
          | some l =>
            (windowFilter (fun x => x.trade_date)
                (endD - (if lb = 0 then 60 else lb)) endD l).filter
              (fun x => (normalizeCodes codes).contains x.code))
        (match store.northbound_data with
          | none => []
          | some l =>
            (windowFilter (fun x => x.trade_date)
                (endD - (if lb = 0 then 60 else lb)) endD l).filter
              (fun x => (normalizeCodes codes).contains x.code))
        c = some sr := by
  obtain ⟨sb, dm, mg, nbo, mf⟩ := store
  cases sb with
  | none =>
    simp only [get_signals_for_codes] at hs
    split at hs
    · cases hs
    · split at hs
      · cases hs
      · cases hs
  | some basicAll =>
  cases dm with
  | none =>
    simp only [get_signals_for_codes] at hs
    split at hs
    · cases hs
    · split at hs
      · cases hs
      · split at hs
        · cases hs
        · cases hs
  | some dailyAll =>
  simp only [get_signals_for_codes] at hs
  split at hs
  · cases hs
  · split at hs
    · cases hs
    · split at hs
      · cases hs
      · cases hmax : maxDate (fun r => r.trade_date) dailyAll with
        | none => rw [hmax] at hs; cases hs
        | some endD =>
        rw [hmax] at hs
        simp only at hs
        by_cases hlb : lb = 0
        · rw [if_pos hlb] at hs
          split at hs
          · cases hs
          · rcases List.mem_filterMap.mp hs with ⟨c, hcmem, hcbuild⟩
            refine ⟨basicAll, dailyAll, endD, c, rfl, rfl, hmax, hcmem, ?_⟩
            rw [if_pos hlb]
            exact hcbuild
        · rw [if_neg hlb] at hs
          split at hs
          · cases hs
          · rcases List.mem_filterMap.mp hs with ⟨c, hcmem, hcbuild⟩
            refine ⟨basicAll, dailyAll, endD, c, rfl, rfl, hmax, hcmem, ?_⟩
            rw [if_neg hlb]
            exact hcbuild

theorem dailyGroup_filter (cs : List String) (c : String)
    (hc : cs.contains c = true) (l : List DailyRow) :
    dailyGroup (l.filter (fun r => cs.contains r.code)) c =
      dailyGroup l c := by
  unfold dailyGroup
  exact codeGroup_filter_contains (fun r => r.code) (fun r => r.trade_date)
    cs c hc l

theorem nbGroup_filter (cs : List String) (c : String)
    (hc : cs.contains c = true) (l : List NbRow) :
    nbGroup (l.filter (fun r => cs.contains r.code)) c = nbGroup l c := by
  unfold nbGroup
  exact codeGroup_filter_contains (fun r => r.code) (fun r => r.trade_date)
    cs c hc l

theorem snapNetFin_filter (cs : List String) (c : String)
    (hc : cs.contains c = true) (l : List MarginRow) :
    snapNetFin (l.filter (fun r => cs.contains r.code)) c =
      snapNetFin l c := by
  unfold snapNetFin marginLatest
  rw [codeGroup_filter_contains (fun r => r.code) (fun r => r.trade_date)
    cs c hc l]

theorem generate_signals_row_congr (row : SignalRow) (i1 i2 : InfoDict)
    (hn : i1.name = i2.name) (hm : i1.total_mv = i2.total_mv) :
    generate_signals_row row i1 = generate_signals_row row i2 := by
  simp only [generate_signals_row, check_fundamentals, hn, hm]

/-- Per shared code, the bulk loop body and the targeted loop body agree
on the signal and the surge score once the targeted path's extra
code-membership filters are discharged. -/
theorem mk_rows_consistent (info : BasicRow) (dailyW : List DailyRow)
    (marginW : List MarginRow) (mainW : List MainRow) (nbW : List NbRow)
    (cs : List String) (c : String) (hc : cs.contains c = true) :
    (mkReportRow info dailyW marginW mainW nbW c).signal =
      (mkSigRow info (dailyW.filter (fun r => cs.contains r.code))
        (marginW.filter (fun r => cs.contains r.code))
        (nbW.filter (fun r => cs.contains r.code)) c).signal ∧
    (mkReportRow info dailyW marginW mainW nbW c).surgeScore =
      (mkSigRow info (dailyW.filter (fun r => cs.contains r.code))
        (marginW.filter (fun r => cs.contains r.code))
        (nbW.filter (fun r => cs.contains r.code)) c).surgeScore := by
  constructor
  · rw [mkReportRow_signal, mkSigRow_signal, dailyGroup_filter cs c hc,
      snapNetFin_filter cs c hc, nbGroup_filter cs c hc]
    exact generate_signals_row_congr _ _ _ rfl rfl
  · rw [mkReportRow_surgeScore, mkSigRow_surgeScore,
      snapNetFin_filter cs c hc]

theorem foldl_min_mem : ∀ (ds : List ℤ) (d : ℤ), ds.foldl min d ∈ d :: ds := by
  intro ds
  induction ds with
  | nil => intro d; simp
  | cons a t ih =>
    intro d
    rw [List.foldl_cons]
    rcases List.mem_cons.mp (ih (min d a)) with h | h
    · rcases min_choice d a with hm | hm
      · rw [h, hm]; exact List.mem_cons_self _ _
      · rw [h, hm]; simp
    · simp [h]

theorem foldl_min_le :
    ∀ (ds : List ℤ) (d : ℤ), ∀ x ∈ d :: ds, ds.foldl min d ≤ x := by
  intro ds
  induction ds with
  | nil =>
    intro d x hx
    simp only [List.mem_singleton] at hx
    simp [hx]
  | cons a t ih =>
    intro d x hx
    rw [List.foldl_cons]
    rcases List.mem_cons.mp hx with rfl | h
    · exact le_trans (ih _ _ (List.mem_cons_self _ _)) (min_le_left _ _)
    · rcases List.mem_cons.mp h with rfl | h2
      · exact le_trans (ih _ _ (List.mem_cons_self _ _)) (min_le_right _ _)
      · exact ih _ x (List.mem_cons_of_mem _ h2)

theorem round2_zero : round2 0 = 0 := by decide

theorem snapNetFin_max (marginW : List MarginRow) (c : String)
    (m : MarginRow) (hm : m ∈ marginW) (hmc : m.code = c)
    (hmax : ∀ x ∈ marginW, x.code = c →
      x = m ∨ x.trade_date < m.trade_date) :
    snapNetFin marginW c = m.net_financing_buy := by
  unfold snapNetFin marginLatest
  rw [codeGroup_getLast_max (fun r => r.code) (fun r => r.trade_date)
    c marginW m hm hmc hmax]
  rfl

theorem snapNetFin_none (marginW : List MarginRow) (c : String)
    (h : ∀ x ∈ marginW, x.code ≠ c) : snapNetFin marginW c = 0 := by
  unfold snapNetFin marginLatest
  rw [codeGroup_eq_nil (fun r => r.code) (fun r => r.trade_date) c
    marginW h]
  rfl

theorem snapMainIn_max (mainW : List MainRow) (c : String) (m : MainRow)
    (hm : m ∈ mainW) (hmc : m.code = c)
    (hmax : ∀ x ∈ mainW, x.code = c →
      x = m ∨ x.trade_date < m.trade_date) :
    snapMainIn mainW c = m.main_net_inflow := by
  unfold snapMainIn mainLatest
  rw [codeGroup_getLast_max (fun r => r.code) (fun r => r.trade_date)
    c mainW m hm hmc hmax]
  rfl

theorem snapMainIn_none (mainW : List MainRow) (c : String)
    (h : ∀ x ∈ mainW, x.code ≠ c) : snapMainIn mainW c = 0 := by
  unfold snapMainIn mainLatest
  rw [codeGroup_eq_nil (fun r => r.code) (fun r => r.trade_date) c
    mainW h]
  rfl

theorem nbHoldAt_max (nbW : List NbRow) (c : String) (m : NbRow)
    (hm : m ∈ nbW) (hmc : m.code = c)
    (hmax : ∀ x ∈ nbW, x.code = c →
      x = m ∨ x.trade_date < m.trade_date) :
    nbHoldAt (nbGroup nbW c) = m.net_inflow := by
  unfold nbHoldAt nbGroup
  rw [codeGroup_getLast_max (fun r => r.code) (fun r => r.trade_date)
    c nbW m hm hmc hmax]
  rfl

theorem nbGroup_none (nbW : List NbRow) (c : String)
    (h : ∀ x ∈ nbW, x.code ≠ c) : nbGroup nbW c = [] := by
  unfold nbGroup
  exact codeGroup_eq_nil (fun r => r.code) (fun r => r.trade_date) c nbW h

/-! Claim theorems -/

/-- Claim C9: the freshness resolver returns the minimum of the per-table
maximum trade dates, excluding tables whose max-date query fails or
yields no date, and returns `none` exactly when no table yields a date. -/
theorem c9_freshness_resolver (s : Store) :
    (get_latest_common_trade_date s = none ↔ collectedMaxDates s = []) ∧
    (∀ m : ℤ, get_latest_common_trade_date s = some m →
      m ∈ collectedMaxDates s ∧ ∀ d ∈ collectedMaxDates s, m ≤ d) ∧
    (∀ d : ℤ, d ∈ collectedMaxDates s ↔
      (tableMax (fun r => r.trade_date) s.daily_market = some d ∨
       tableMax (fun r => r.trade_date) s.margin_data = some d ∨
       tableMax (fun r => r.trade_date) s.northbound_data = some d ∨
       tableMax (fun r => r.trade_date) s.main_fund_flow = some d)) := by
  refine ⟨?_, ?_, ?_⟩
  · unfold get_latest_common_trade_date
    cases h : collectedMaxDates s <;> simp
  · intro m hm
    unfold get_latest_common_trade_date at hm
    cases h : collectedMaxDates s with
    | nil => rw [h] at hm; simp at hm
    | cons d0 ds =>
      rw [h] at hm
      simp only [Option.some.injEq] at hm
      subst hm
      exact ⟨foldl_min_mem ds d0, foldl_min_le ds d0⟩
  · intro d
    cases h1 : tableMax (fun r => r.trade_date) s.daily_market <;>
      cases h2 : tableMax (fun r => r.trade_date) s.margin_data <;>
      cases h3 : tableMax (fun r => r.trade_date) s.northbound_data <;>
      cases h4 : tableMax (fun r => r.trade_date) s.main_fund_flow <;>
      simp [collectedMaxDates, h1, h2, h3, h4] <;> tauto

/-- Claim C9 witness: on a store whose market table tops out at 101, the
empty margin table is excluded, northbound tops at 99 and main fund flow
at 100, the resolver returns 99, the minimum of the collected maxima. -/
theorem c9_freshness_resolver_witness :
    get_latest_common_trade_date c9store = some 99 ∧
    (99 : ℤ) ∈ collectedMaxDates c9store ∧
    ∀ d ∈ collectedMaxDates c9store, (99 : ℤ) ≤ d := by
  have h := (c9_freshness_resolver c9store).2.1 99 (by decide)
  exact ⟨by decide, h.1, h.2⟩

/-- Claim C4 counterexample: a non-blacklisted row below its MA20 with
positive net financing and negative foreign inflow satisfies the rule-2
and rule-3 conditions simultaneously, refuting mutual exclusivity of
rules 1-3. -/
theorem c4_counterexample :
    (check_fundamentals c4info).1 = true ∧ rule2b c4row = true ∧
      rule3b c4row = true := by decide

/-- Claim C4 (amended): rule 1 is mutually exclusive with rules 2 and 3
(above-MA versus below-MA); rules 2 and 3 may hold together when the two
fund flows have opposite signs, and the classifier resolves any such
overlap to rule 2's label by priority. -/
theorem c4_rules_exclusivity (row : SignalRow) (info : InfoDict)
    (h : (check_fundamentals info).1 = true) :
    (¬ (rule1b row = true ∧ rule2b row = true)) ∧
    (¬ (rule1b row = true ∧ rule3b row = true)) ∧
    (rule2b row = true →
      generate_signals_row row info = "🟡 关注(底部异动)") := by
  refine ⟨?_, ?_, ?_⟩
  · rintro ⟨h1, h2⟩
    simp only [rule1b, rule2b, Bool.and_eq_true, Bool.or_eq_true,
      decide_eq_true_eq] at h1 h2
    exact absurd h2.1 (not_lt_of_gt h1.1.1)
  · rintro ⟨h1, h3⟩
    simp only [rule1b, rule3b, Bool.and_eq_true, Bool.or_eq_true,
      decide_eq_true_eq] at h1 h3
    exact absurd h3.1 (not_lt_of_gt h1.1.1)
  · intro h2
    simp only [rule2b, Bool.and_eq_true, Bool.or_eq_true,
      decide_eq_true_eq] at h2
    simp only [generate_signals_row]
    rw [if_neg (by simp [h])]
    rw [if_neg (by rintro ⟨hlt, -⟩; exact absurd hlt (not_lt_of_gt h2.1))]
    rw [if_pos ⟨h2.1, h2.2⟩]

/-- Claim C4 witness: the amended exclusivity and priority facts at the
concrete opposite-sign row. -/
theorem c4_rules_exclusivity_witness :
    (¬ (rule1b c4row = true ∧ rule2b c4row = true)) ∧
    (¬ (rule1b c4row = true ∧ rule3b c4row = true)) ∧
    (rule2b c4row = true →
      generate_signals_row c4row c4info = "🟡 关注(底部异动)") :=
  c4_rules_exclusivity c4row c4info (by decide)

/-- Claim C5 counterexample: the targeted path's normalization of
`["600000", "600000 ", "abc600000", "1"]` is `["000001", "600000"]`, not
the claimed `{"600000"}` — the too-short numeric `"1"` is zero-padded to
`"000001"`, not discarded. -/
theorem c5_counterexample :
    normalizeCodes
        [some ("600000"), some ("600000 "), some ("abc600000"),
         some ("1")] = ["000001", "600000"] ∧
      (["000001", "600000"] : List String) ≠ ["600000"] := by
  constructor
  · decide
  · decide

/-- Claim C5 (amended): the scenario input normalizes to the working set
containing both the zero-padded `"000001"` and `"600000"` (trimmed
duplicate collapsed, embedded digit run recovered), deduplicated and
sorted; pure-numeric inputs are zero-padded (never discarded for being
short), and a non-numeric input whose embedded digits do not number
exactly six is discarded. -/
theorem c5_normalization :
    normalizeCodes
        [some ("600000"), some ("600000 "), some ("abc600000"),
         some ("1")] = ["000001", "600000"] ∧
    (∀ c : String, pyIsdigit (pyStrip c).data = false →
      ((pyStrip c).data.filter Char.isDigit).length ≠ 6 →
      cleanCode (some c) = none) ∧
    (∀ c : String, pyIsdigit (pyStrip c).data = true →
      cleanCode (some c) = some (zfill6 (pyStrip c))) := by
  refine ⟨by decide, ?_, ?_⟩
  · intro c h1 h2
    cases hemp : (pyStrip c).data.isEmpty with
    | true => simp [cleanCode, hemp]
    | false => simp [cleanCode, hemp, h1, h2]
  · intro c h1
    have hemp : (pyStrip c).data.isEmpty = false := by
      revert h1
      unfold pyIsdigit
      cases (pyStrip c).data.isEmpty <;> simp
    simp [cleanCode, hemp, h1]

/-- Claim C5 witness: a non-numeric string with five embedded digits is
discarded by the cleaning loop. -/
theorem c5_normalization_witness : cleanCode (some ("abc12")) = none :=
  c5_normalization.2.1 "abc12" (by decide) (by decide)

/-- Claim C8: the classifier returns a blacklist label iff the name
contains the ST marker or the total market value is strictly positive
but strictly below 2e9, and a blacklist verdict is independent of all
price and flow fields of the row. -/
theorem c8_blacklist_characterization (row rowB : SignalRow)
    (info : InfoDict) :
    ((generate_signals_row row info = "⚫ 黑名单 (ST股)" ∨
      generate_signals_row row info = "⚫ 黑名单 (微盘股)") ↔
      (pyContains info.name ("ST") = true ∨
        (0 < info.total_mv ∧ info.total_mv < 2000000000))) ∧
    ((check_fundamentals info).1 = false →
      generate_signals_row row info = generate_signals_row rowB info) := by
  have happ1 : ("⚫ " ++ "黑名单 (ST股)" : String) = "⚫ 黑名单 (ST股)" := by
    decide
  have happ2 : ("⚫ " ++ "黑名单 (微盘股)" : String) = "⚫ 黑名单 (微盘股)" := by
    decide
  by_cases hst : pyContains info.name ("ST") = true
  · constructor
    · simp [generate_signals_row, check_fundamentals, hst, happ1]
    · intro _
      simp [generate_signals_row, check_fundamentals, hst]
  · by_cases hmv : 0 < info.total_mv ∧ info.total_mv < 2000000000
    · constructor
      · simp [generate_signals_row, check_fundamentals, hst, hmv, happ2]
      · intro _
        simp [generate_signals_row, check_fundamentals, hst, hmv]
    · constructor
      · have hfc : check_fundamentals info = (true, "") := by
          simp [check_fundamentals, hst, hmv]
        simp only [generate_signals_row, hfc]
        rw [if_neg (by simp)]
        constructor
        · intro hor
          exfalso
          revert hor
          split_ifs <;> decide
        · intro hor
          exfalso
          rcases hor with h | h
          · exact hst h
          · exact hmv h
      · intro hfc
        simp [check_fundamentals, hst, hmv] at hfc

/-- Claim C8 witness: the concrete 1.5e9 total-market-value instrument
with an unmarked name is blacklisted as a micro cap, with a verdict
independent of the row's price and flow fields. -/
theorem c8_blacklist_characterization_witness :
    generate_signals_row c8row c8info = "⚫ 黑名单 (微盘股)" ∧
    generate_signals_row c8row c8info =
      generate_signals_row c8rowB c8info := by
  have h := c8_blacklist_characterization c8row c8rowB c8info
  refine ⟨?_, h.2 (by decide)⟩
  have h2 := h.1.mpr (Or.inr (by constructor <;> decide))
  exact h2.resolve_left (by decide)

/-- Claim C3: signal classification is total — every (row, info) pair is
mapped to the blacklist label when the blacklist predicate holds, else
to the first matching rule of the fixed priority list, and the result is
always one of the eight defined labels. -/
theorem c3_signal_total_priority (row : SignalRow) (info : InfoDict) :
    generate_signals_row row info =
      (if (check_fundamentals info).1 = false
        then "⚫ " ++ (check_fundamentals info).2
        else priorityLabel row) ∧
    generate_signals_row row info ∈
      ["⚫ 黑名单 (ST股)", "⚫ 黑名单 (微盘股)", "🟢 强力买入",
       "🟡 关注(底部异动)", "⚫ 止损离场", "💸 资金出逃", "📈 趋势向上",
       "⚪️ 中性"] := by
  constructor
  · simp only [generate_signals_row, priorityLabel, firstMatch, rule1b,
      rule2b, rule3b, rule4b, rule5b, Bool.and_eq_true, Bool.or_eq_true,
      decide_eq_true_eq]
    split_ifs <;> first | rfl | tauto
  · simp only [generate_signals_row, check_fundamentals]
    split_ifs <;> simp_all

/-- Claim C10: both report paths drop instruments absent from the
reference table — every bulk output row's code has a `stock_basic` row,
and every targeted output row's code has both a `stock_basic` row and a
market bar. -/
theorem c10_reference_filter :
    (∀ (store : Store) (rows : List ReportRow) (r : ReportRow),
      get_full_analysis_report store = some rows → r ∈ rows →
      ∃ basicRows b, store.stock_basic = some basicRows ∧ b ∈ basicRows ∧
        b.code = r.code) ∧
    (∀ (store : Store) (codes : List (Option String)) (lb : ℤ)
      (sr : SigRow), sr ∈ get_signals_for_codes store codes lb →
      (∃ basicRows b, store.stock_basic = some basicRows ∧
        b ∈ basicRows ∧ b.code = sr.code) ∧
      (∃ dailyAll endD d, store.daily_market = some dailyAll ∧
        maxDate (fun x => x.trade_date) dailyAll = some endD ∧
        d ∈ windowFilter (fun x => x.trade_date)
          (endD - (if lb = 0 then 60 else lb)) endD dailyAll ∧
        d.code = sr.code)) := by
  constructor
  · intro store rows r hb hr
    rcases bulk_mem_elim hb hr with
      ⟨basicRows, dailyAll, marginAll, endD, c, hsb, hdm, hmg, hmax, hcm,
        hbuild⟩
    rcases buildRow?_elim hbuild with ⟨info, hlook, hrEq⟩
    rcases basicLookup_eq_some hlook with ⟨hmem, hcodeI⟩
    refine ⟨basicRows, info, hsb, hmem, ?_⟩
    rw [hrEq, mkReportRow_code, hcodeI]
  · intro store codes lb sr hs
    rcases targeted_mem_elim hs with
      ⟨basicAll, dailyAll, endD, c, hsb, hdm, hmax, hcm, hbuild⟩
    rcases buildSig?_elim hbuild with ⟨info, hlook, hne, hsrEq⟩
    rcases basicLookup_eq_some hlook with ⟨hmemF, hcodeI⟩
    have hmemB : info ∈ basicAll := List.mem_of_mem_filter hmemF
    have hsrcode : sr.code = c := by rw [hsrEq, mkSigRow_code]
    constructor
    · exact ⟨basicAll, info, hsb, hmemB, by rw [hsrcode]; exact hcodeI⟩
    · have hnil : dailyGroup ((windowFilter (fun x => x.trade_date)
          (endD - (if lb = 0 then 60 else lb)) endD dailyAll).filter
            (fun x => (normalizeCodes codes).contains x.code)) c ≠ [] := by
        intro hnil
        rw [hnil] at hne
        simp at hne
      rcases List.exists_mem_of_ne_nil _ hnil with ⟨d, hd⟩
      have hd1 := mem_sortOn.mp hd
      rcases List.mem_filter.mp hd1 with ⟨hd2, hdbeq⟩
      rcases List.mem_filter.mp hd2 with ⟨hd3, _⟩
      refine ⟨dailyAll, endD, d, hdm, hmax, hd3, ?_⟩
      rw [hsrcode]
      simpa using hdbeq

/-- Claim C10 witness: the store holding a market bar for the unknown
code 688001 produces exactly one bulk row and one targeted row, both for
the referenced code 600000; the unreferenced code is silently dropped by
both paths. -/
theorem c10_reference_filter_witness :
    get_full_analysis_report c10store = some [c10row] ∧
    get_signals_for_codes c10store
      [some ("688001"), some ("600000")] 60 = [c10sig] ∧
    c10row.code = "600000" ∧ c10sig.code = "600000" ∧
    basicPufa.code = "600000" := by
  have h1 := c10_reference_filter.1 c10store [c10row] c10row (by decide)
    (by decide)
  have h2 := c10_reference_filter.2 c10store
    [some ("688001"), some ("600000")] 60 c10sig (by decide)
  exact ⟨by decide, by decide, rfl, rfl, rfl⟩

/-- Claim C6 counterexample: a store holding a single market bar for its
instrument produces a bulk report row whose percent-change ratio field
is NaN (`none`), refuting "no ratio field of any output row is ever NaN
or infinite". -/
theorem c6_counterexample :
    get_full_analysis_report c6store = some [c6row] ∧
    c6row.chgPct = none := by
  constructor
  · decide
  · rfl

/-- Claim C6 (amended): every market-value-normalized ratio of a bulk
report row guards its denominator — with a non-positive float market
value the surge score and both float-normalized percentages are exactly
0, and with a non-positive total market value both total-normalized
percentages are exactly 0 — but the percent-change field (a ratio
computed without a guard) is NaN for an instrument whose window holds a
single bar. -/
theorem c6_ratio_guards (store : Store) (rows : List ReportRow)
    (r : ReportRow) (basicRows : List BasicRow) (b : BasicRow)
    (hb : get_full_analysis_report store = some rows) (hr : r ∈ rows)
    (hsb : store.stock_basic = some basicRows)
    (hlook : basicLookup basicRows r.code = some b) :
    (b.float_mv ≤ 0 →
      r.surgeScore = 0 ∧ r.finMvPct = 0 ∧ r.nbMvPct = 0) ∧
    (b.total_mv ≤ 0 → r.finTmvPct = 0 ∧ r.nbTmvPct = 0) := by
  rcases bulk_mem_elim hb hr with
    ⟨basicRows2, dailyAll, marginAll, endD, c, hsb2, hdm, hmg, hmax, hcm,
      hbuild⟩
  rw [hsb] at hsb2
  have hbr : basicRows = basicRows2 := Option.some.inj hsb2
  subst hbr
  rcases buildRow?_elim hbuild with ⟨info, hlook2, hrEq⟩
  have hrc : r.code = c := by rw [hrEq, mkReportRow_code]
  rw [hrc] at hlook
  rw [hlook] at hlook2
  have hib : b = info := Option.some.inj hlook2
  subst hib
  constructor
  · intro hfl
    have hnlt : ¬ (0 < b.float_mv) := not_lt.mpr hfl
    refine ⟨?_, ?_, ?_⟩
    · rw [hrEq, mkReportRow_surgeScore, if_neg hnlt, zero_mul]
      exact round2_zero
    · rw [hrEq, mkReportRow_finMvPct, if_neg hnlt]
      exact round2_zero
    · rw [hrEq, mkReportRow_nbMvPct, if_neg hnlt]
      exact round2_zero
  · intro htl
    have hnlt : ¬ (0 < b.total_mv) := not_lt.mpr htl
    refine ⟨?_, ?_⟩
    · rw [hrEq, mkReportRow_finTmvPct, if_neg hnlt]
      exact round2_zero
    · rw [hrEq, mkReportRow_nbTmvPct, if_neg hnlt]
      exact round2_zero

/-- Claim C6 witness: the denominator guards at a store whose instrument
has zero float and total market value but live financing activity. -/
theorem c6_ratio_guards_witness :
    get_full_analysis_report c6wstore = some [c6wrow] ∧
    c6wrow.surgeScore = 0 ∧ c6wrow.finMvPct = 0 ∧ c6wrow.nbMvPct = 0 ∧
    c6wrow.finTmvPct = 0 ∧ c6wrow.nbTmvPct = 0 := by
  have h := c6_ratio_guards c6wstore [c6wrow] c6wrow [c6wbasic] c6wbasic
    (by decide) (by decide)
    (by decide) (by decide)
  rcases h.1 (by decide) with ⟨h1, h2, h3⟩
  rcases h.2 (by decide) with ⟨h4, h5⟩
  exact ⟨by decide, h1, h2, h3, h4, h5⟩

/-- Claim C7 counterexample: a store whose margin table errors on read
while the reference table and market table are present and non-empty
makes the whole bulk report fail (an uncaught exception, modelled as
`none`) instead of resolving the margin table to an empty result — the
bulk margin read is the one source read not wrapped in try/except. -/
theorem c7_counterexample :
    get_full_analysis_report c7store = none ∧
    c7store.margin_data = none ∧
    c7store.daily_market ≠ some [] ∧ c7store.daily_market ≠ none ∧
    c7store.stock_basic ≠ some [] ∧ c7store.stock_basic ≠ none := by
  refine ⟨by decide, rfl, by decide, by decide, by decide, by decide⟩

/-- Claim C7 (amended): an error or absence of the main-fund-flow or
foreign-holding table resolves to an empty result in the bulk path, and
of the margin or foreign-holding table in the targeted path, the report
still being produced with the corresponding fields defaulted; an empty
market-bar result makes the whole report empty in both paths; but a
margin-table read error in the bulk path propagates as a failure. -/
theorem c7_degraded_reads :
    (∀ store : Store,
      get_full_analysis_report { store with main_fund_flow := none } =
        get_full_analysis_report { store with main_fund_flow := some [] }) ∧
    (∀ store : Store,
      get_full_analysis_report { store with northbound_data := none } =
        get_full_analysis_report
          { store with northbound_data := some [] }) ∧
    (∀ (store : Store) (codes : List (Option String)) (lb : ℤ),
      get_signals_for_codes { store with margin_data := none } codes lb =
        get_signals_for_codes { store with margin_data := some [] }
          codes lb) ∧
    (∀ (store : Store) (codes : List (Option String)) (lb : ℤ),
      get_signals_for_codes { store with northbound_data := none } codes
          lb =
        get_signals_for_codes { store with northbound_data := some [] }
          codes lb) ∧
    (∀ store : Store, store.daily_market = some [] →
      get_full_analysis_report store = some [] ∧
      ∀ (codes : List (Option String)) (lb : ℤ),
        get_signals_for_codes store codes lb = []) := by
  refine ⟨?_, ?_, ?_, ?_, ?_⟩
  · intro store
    obtain ⟨sb, dm, mg, nbo, mf⟩ := store
    cases sb with
    | none => rfl
    | some basicRows =>
    cases dm with
    | none => rfl
    | some dailyAll =>
    simp only [get_full_analysis_report]
    cases maxDate (fun r => r.trade_date) dailyAll with
    | none => rfl
    | some endD =>
    cases mg with
    | none => rfl
    | some marginAll => simp [windowFilter]
  · intro store
    obtain ⟨sb, dm, mg, nbo, mf⟩ := store
    cases sb with
    | none => rfl
    | some basicRows =>
    cases dm with
    | none => rfl
    | some dailyAll =>
    simp only [get_full_analysis_report]
    cases maxDate (fun r => r.trade_date) dailyAll with
    | none => rfl
    | some endD =>
    cases mg with
    | none => rfl
    | some marginAll => simp [windowFilter]
  · intro store codes lb
    obtain ⟨sb, dm, mg, nbo, mf⟩ := store
    cases sb with
    | none => rfl
    | some basicAll =>
    cases dm with
    | none => rfl
    | some dailyAll =>
    simp only [get_signals_for_codes]
    cases maxDate (fun r => r.trade_date) dailyAll with
    | none => rfl
    | some endD => simp [windowFilter]
  · intro store codes lb
    obtain ⟨sb, dm, mg, nbo, mf⟩ := store
    cases sb with
    | none => rfl
    | some basicAll =>
    cases dm with
    | none => rfl
    | some dailyAll =>
    simp only [get_signals_for_codes]
    cases maxDate (fun r => r.trade_date) dailyAll with
    | none => rfl
    | some endD => simp [windowFilter]
  · intro store hdaily
    obtain ⟨sb, dm, mg, nbo, mf⟩ := store
    simp only at hdaily
    subst hdaily
    constructor
    · cases sb with
      | none => rfl
      | some basicRows => rfl
    · intro codes lb
      cases sb with
      | none =>
        simp only [get_signals_for_codes]
        split
        · rfl
        · split <;> rfl
      | some basicAll =>
        simp only [get_signals_for_codes]
        split
        · rfl
        · split
          · rfl
          · split <;> rfl

/-- Claim C2: in both snapshot extractions the latest-observation join
is per code — a bulk row carries the values of the maximum-date margin,
main-fund-flow and foreign-holding rows of its code inside the window
(no matter how those dates relate to the code's latest market-bar date),
funding fields default to zero exactly when the code has no row of that
source in the window, and the targeted path's surge score is likewise
computed from the per-code maximum-date margin row. -/
theorem c2_latest_join_per_code :
    (∀ (store : Store) (rows : List ReportRow) (r : ReportRow)
        (dailyAll : List DailyRow) (marginAll : List MarginRow) (endD : ℤ),
      get_full_analysis_report store = some rows → r ∈ rows →
      store.daily_market = some dailyAll →
      store.margin_data = some marginAll →
      maxDate (fun x => x.trade_date) dailyAll = some endD →
      (∀ m ∈ windowFilter (fun x => x.trade_date) (endD - 60) endD
          marginAll, m.code = r.code →
        (∀ x ∈ windowFilter (fun x => x.trade_date) (endD - 60) endD
          marginAll, x.code = r.code → x = m ∨ x.trade_date < m.trade_date) →
        r.financingNet = round2 (m.net_financing_buy / 10000)) ∧
      ((∀ x ∈ windowFilter (fun x => x.trade_date) (endD - 60) endD
          marginAll, x.code ≠ r.code) → r.financingNet = 0) ∧
      (∀ (mainAll : List MainRow), store.main_fund_flow = some mainAll →
        ∀ m ∈ windowFilter (fun x => x.trade_date) (endD - 60) endD
            mainAll, m.code = r.code →
          (∀ x ∈ windowFilter (fun x => x.trade_date) (endD - 60) endD
            mainAll, x.code = r.code →
            x = m ∨ x.trade_date < m.trade_date) →
          r.mainInflow = round2 (m.main_net_inflow / 10000)) ∧
      (∀ (mainAll : List MainRow), store.main_fund_flow = some mainAll →
        (∀ x ∈ windowFilter (fun x => x.trade_date) (endD - 60) endD
          mainAll, x.code ≠ r.code) → r.mainInflow = 0) ∧
      (∀ (nbAll : List NbRow), store.northbound_data = some nbAll →
        ∀ m ∈ windowFilter (fun x => x.trade_date) (endD - 60) endD nbAll,
          m.code = r.code →
          (∀ x ∈ windowFilter (fun x => x.trade_date) (endD - 60) endD
            nbAll, x.code = r.code →
            x = m ∨ x.trade_date < m.trade_date) →
          r.nbHold = round2 (m.net_inflow / 100000000)) ∧
      (∀ (nbAll : List NbRow), store.northbound_data = some nbAll →
        (∀ x ∈ windowFilter (fun x => x.trade_date) (endD - 60) endD
          nbAll, x.code ≠ r.code) →
        r.nbHold = 0 ∧ r.nbInflow = 0)) ∧
    (∀ (store : Store) (codes : List (Option String)) (sr : SigRow)
        (basicAll : List BasicRow) (b : BasicRow)
        (dailyAll : List DailyRow) (marginAll : List MarginRow) (endD : ℤ),
      sr ∈ get_signals_for_codes store codes 60 →
      store.stock_basic = some basicAll →
      store.daily_market = some dailyAll →
      store.margin_data = some marginAll →
      maxDate (fun x => x.trade_date) dailyAll = some endD →
      basicLookup basicAll sr.code = some b → 0 < b.float_mv →
      (∀ m ∈ windowFilter (fun x => x.trade_date) (endD - 60) endD
          marginAll, m.code = sr.code →
        (∀ x ∈ windowFilter (fun x => x.trade_date) (endD - 60) endD
          marginAll, x.code = sr.code →
          x = m ∨ x.trade_date < m.trade_date) →
        sr.surgeScore = round2 (m.net_financing_buy / b.float_mv * 1000)) ∧
      ((∀ x ∈ windowFilter (fun x => x.trade_date) (endD - 60) endD
          marginAll, x.code ≠ sr.code) → sr.surgeScore = 0)) := by
  constructor
  · intro store rows r dailyAll marginAll endD hb hr hdm hmg hmax
    rcases bulk_mem_elim hb hr with
      ⟨basicRows2, dailyAll2, marginAll2, endD2, c, hsb2, hdm2, hmg2,
        hmax2, hcm, hbuild⟩
    rw [hdm] at hdm2
    have e1 : dailyAll = dailyAll2 := Option.some.inj hdm2
    subst e1
    rw [hmg] at hmg2
    have e2 : marginAll = marginAll2 := Option.some.inj hmg2
    subst e2
    rw [hmax] at hmax2
    have e3 : endD = endD2 := Option.some.inj hmax2
    subst e3
    rcases buildRow?_elim hbuild with ⟨info, hlook, hrEq⟩
    have hrc : r.code = c := by rw [hrEq]; rfl
    refine ⟨?_, ?_, ?_, ?_, ?_, ?_⟩
    · intro m hmW hmc hmaxm
      rw [hrEq, mkReportRow_financingNet,
        snapNetFin_max _ c m hmW (hmc.trans hrc)
          (fun x hx hxc => hmaxm x hx (hxc.trans hrc.symm))]
    · intro hno
      rw [hrEq, mkReportRow_financingNet,
        snapNetFin_none _ c (fun x hx => by
          intro hxc
          exact hno x hx (hxc.trans hrc.symm)),
        zero_div]
      exact round2_zero
    · intro mainAll hmf m hmW hmc hmaxm
      have hmw : (match store.main_fund_flow with
          | none => ([] : List MainRow)
          | some l => windowFilter (fun x => x.trade_date) (endD - 60)
              endD l) =
          windowFilter (fun x => x.trade_date) (endD - 60) endD mainAll :=
        by rw [hmf]
      rw [hrEq, mkReportRow_mainInflow, hmw,
        snapMainIn_max _ c m hmW (hmc.trans hrc)
          (fun x hx hxc => hmaxm x hx (hxc.trans hrc.symm))]
    · intro mainAll hmf hno
      have hmw : (match store.main_fund_flow with
          | none => ([] : List MainRow)
          | some l => windowFilter (fun x => x.trade_date) (endD - 60)
              endD l) =
          windowFilter (fun x => x.trade_date) (endD - 60) endD mainAll :=
        by rw [hmf]
      rw [hrEq, mkReportRow_mainInflow, hmw,
        snapMainIn_none _ c (fun x hx => by
          intro hxc
          exact hno x hx (hxc.trans hrc.symm)),
        zero_div]
      exact round2_zero
    · intro nbAll hnb m hmW hmc hmaxm
      have hnw : (match store.northbound_data with
          | none => ([] : List NbRow)
          | some l => windowFilter (fun x => x.trade_date) (endD - 60)
              endD l) =
          windowFilter (fun x => x.trade_date) (endD - 60) endD nbAll :=
        by rw [hnb]
      rw [hrEq, mkReportRow_nbHold, hnw,
        nbHoldAt_max _ c m hmW (hmc.trans hrc)
          (fun x hx hxc => hmaxm x hx (hxc.trans hrc.symm))]
    · intro nbAll hnb hno
      have hnw : (match store.northbound_data with
          | none => ([] : List NbRow)
          | some l => windowFilter (fun x => x.trade_date) (endD - 60)
              endD l) =
          windowFilter (fun x => x.trade_date) (endD - 60) endD nbAll :=
        by rw [hnb]
      have hnil : nbGroup (windowFilter (fun x => x.trade_date)
          (endD - 60) endD nbAll) c = [] :=
        nbGroup_none _ c (fun x hx => by
          intro hxc
          exact hno x hx (hxc.trans hrc.symm))
      constructor
      · rw [hrEq, mkReportRow_nbHold, hnw, hnil]
        rw [show nbHoldAt ([] : List NbRow) = 0 from rfl, zero_div]
        exact round2_zero
      · rw [hrEq, mkReportRow_nbInflow, hnw, hnil]
        rw [show nbInflowAt ([] : List NbRow) = 0 from rfl, zero_div]
        exact round2_zero
  · intro store codes sr basicAll b dailyAll marginAll endD hs hsb hdm
      hmg hmax hlookB hfv
    rcases targeted_mem_elim hs with
      ⟨basicAll2, dailyAll2, endD2, c, hsb2, hdm2, hmax2, hcm, hbuild⟩
    rw [hsb] at hsb2
    have e1 : basicAll = basicAll2 := Option.some.inj hsb2
    subst e1
    rw [hdm] at hdm2
    have e2 : dailyAll = dailyAll2 := Option.some.inj hdm2
    subst e2
    rw [hmax] at hmax2
    have e3 : endD = endD2 := Option.some.inj hmax2
    subst e3
    simp only [ite_self] at hbuild
    have hmgw : (match store.margin_data with
        | none => ([] : List MarginRow)
        | some l => (windowFilter (fun x => x.trade_date) (endD - 60)
            endD l).filter
          (fun x => (normalizeCodes codes).contains x.code)) =
        (windowFilter (fun x => x.trade_date) (endD - 60) endD
          marginAll).filter
          (fun x => (normalizeCodes codes).contains x.code) := by
      rw [hmg]
    rw [hmgw] at hbuild
    rcases buildSig?_elim hbuild with ⟨info, hlook, hne, hsrEq⟩
    have hsc : sr.code = c := by rw [hsrEq]; rfl
    have hc : (normalizeCodes codes).contains c = true := by
      simpa using hcm
    have hlookA : basicLookup basicAll c = some info := by
      rw [← basicLookup_filter_contains (normalizeCodes codes) c hc
        basicAll]
      exact hlook
    rw [hsc] at hlookB
    rw [hlookB] at hlookA
    have e4 : b = info := Option.some.inj hlookA
    subst e4
    constructor
    · intro m hmW hmc hmaxm
      rw [hsrEq, mkSigRow_surgeScore,
        snapNetFin_filter (normalizeCodes codes) c hc,
        snapNetFin_max _ c m hmW (hmc.trans hsc)
          (fun x hx hxc => hmaxm x hx (hxc.trans hsc.symm)),
        if_pos hfv]
    · intro hno
      rw [hsrEq, mkSigRow_surgeScore,
        snapNetFin_filter (normalizeCodes codes) c hc,
        snapNetFin_none _ c (fun x hx => by
          intro hxc
          exact hno x hx (hxc.trans hsc.symm)),
        if_pos hfv, zero_div, zero_mul]
      exact round2_zero

/-- Claim C2 witness: on the staggered store the bulk row's financing,
main-inflow and foreign-holding fields come from each source's own
maximum-date row (dates 95, 96, 94 — all earlier than the market date
101), and the targeted surge score comes from the same margin row. -/
theorem c2_latest_join_per_code_witness :
    get_full_analysis_report c2store = some [c2row] ∧
    c2row.financingNet = round2 (c2margin95.net_financing_buy / 10000) ∧
    c2row.mainInflow = round2 (c2main96.main_net_inflow / 10000) ∧
    c2row.nbHold = round2 (c2nb94.net_inflow / 100000000) ∧
    c2sig ∈ get_signals_for_codes c2store [some ("000001")] 60 ∧
    c2sig.surgeScore =
      round2 (c2margin95.net_financing_buy / c2basic.float_mv * 1000) := by
  have hb : get_full_analysis_report c2store = some [c2row] := by decide
  have hbulk := c2_latest_join_per_code.1 c2store [c2row] c2row c2daily
    c2margin 101 hb (by decide) rfl rfl (by decide)
  have hs : c2sig ∈ get_signals_for_codes c2store [some ("000001")] 60 :=
    by decide
  have htgt := c2_latest_join_per_code.2 c2store [some ("000001")] c2sig
    [c2basic] c2basic c2daily c2margin 101 hs rfl rfl rfl (by decide)
    (by decide) (by decide)
  refine ⟨hb, ?_, ?_, ?_, hs, ?_⟩
  · exact hbulk.1 c2margin95 (by decide) (by decide) (by decide)
  · exact hbulk.2.2.1 [c2main96] rfl c2main96 (by decide) (by decide)
      (by decide)
  · exact hbulk.2.2.2.2.1 c2nb rfl c2nb94 (by decide) (by decide)
      (by decide)
  · exact htgt.1 c2margin95 (by decide) (by decide) (by decide)

/-- Claim C1: any code present in both the bulk report and the targeted
output computed from the same store carries an identical signal label,
and surge scores equal within 1e-6 (they are in fact equal exactly in
the rational model). -/
theorem c1_cross_consistency (store : Store)
    (codesInput : List (Option String)) (rows : List ReportRow)
    (r : ReportRow) (sr : SigRow)
    (hb : get_full_analysis_report store = some rows) (hr : r ∈ rows)
    (hs : sr ∈ get_signals_for_codes store codesInput 60)
    (hcode : r.code = sr.code) :
    r.signal = sr.signal ∧
      |r.surgeScore - sr.surgeScore| < 1/1000000 := by
  rcases bulk_mem_elim hb hr with
    ⟨basicRows, dailyAll, marginAll, endD, c, hsb, hdm, hmg, hmax, hcm,
      hbuild⟩
  rcases targeted_mem_elim hs with
    ⟨basicAll2, dailyAll2, endD2, c2, hsb2, hdm2, hmax2, hcm2, hbuild2⟩
  rw [hsb] at hsb2
  have e1 : basicRows = basicAll2 := Option.some.inj hsb2
  subst e1
  rw [hdm] at hdm2
  have e2 : dailyAll = dailyAll2 := Option.some.inj hdm2
  subst e2
  rw [hmax] at hmax2
  have e3 : endD = endD2 := Option.some.inj hmax2
  subst e3
  simp only [ite_self] at hbuild2
  have hmgw : (match store.margin_data with
      | none => ([] : List MarginRow)
      | some l => (windowFilter (fun x => x.trade_date) (endD - 60)
          endD l).filter
        (fun x => (normalizeCodes codesInput).contains x.code)) =
      (windowFilter (fun x => x.trade_date) (endD - 60) endD
        marginAll).filter
        (fun x => (normalizeCodes codesInput).contains x.code) := by
    rw [hmg]
  rw [hmgw] at hbuild2
  rcases buildRow?_elim hbuild with ⟨info, hlook, hrEq⟩
  rcases buildSig?_elim hbuild2 with ⟨info2, hlook2, hne, hsrEq⟩
  have hrc : r.code = c := by rw [hrEq]; rfl
  have hsc : sr.code = c2 := by rw [hsrEq]; rfl
  have hcc : c = c2 := by rw [← hrc, hcode, hsc]
  subst hcc
  have hc : (normalizeCodes codesInput).contains c = true := by
    simpa using hcm2
  have hinfo : info2 = info := by
    have h1 : basicLookup basicRows c = some info2 := by
      rw [← basicLookup_filter_contains (normalizeCodes codesInput) c hc
        basicRows]
      exact hlook2
    rw [hlook] at h1
    exact (Option.some.inj h1).symm
  subst hinfo
  cases hnb : store.northbound_data with
  | none =>
    have hnw1 : (match store.northbound_data with
        | none => ([] : List NbRow)
        | some l => windowFilter (fun x => x.trade_date) (endD - 60)
            endD l) = [] := by rw [hnb]
    have hnw2 : (match store.northbound_data with
        | none => ([] : List NbRow)
        | some l => (windowFilter (fun x => x.trade_date) (endD - 60)
            endD l).filter
          (fun x => (normalizeCodes codesInput).contains x.code)) =
        ([] : List NbRow).filter
          (fun x => (normalizeCodes codesInput).contains x.code) := by
      rw [hnb]
      rfl
    rw [hnw1] at hrEq
    rw [hnw2] at hsrEq
    constructor
    · rw [hrEq, hsrEq]
      exact (mk_rows_consistent info2 _ _ _ _ _ c hc).1
    · rw [hrEq, hsrEq, (mk_rows_consistent info2 _ _ _ _ _ c hc).2,
        sub_self, abs_zero]
      norm_num
  | some nbAll =>
    have hnw1 : (match store.northbound_data with
        | none => ([] : List NbRow)
        | some l => windowFilter (fun x => x.trade_date) (endD - 60)
            endD l) =
        windowFilter (fun x => x.trade_date) (endD - 60) endD nbAll := by
      rw [hnb]
    have hnw2 : (match store.northbound_data with
        | none => ([] : List NbRow)
        | some l => (windowFilter (fun x => x.trade_date) (endD - 60)
            endD l).filter
          (fun x => (normalizeCodes codesInput).contains x.code)) =
        (windowFilter (fun x => x.trade_date) (endD - 60) endD
          nbAll).filter
          (fun x => (normalizeCodes codesInput).contains x.code) := by
      rw [hnb]
    rw [hnw1] at hrEq
    rw [hnw2] at hsrEq
    constructor
    · rw [hrEq, hsrEq]
      exact (mk_rows_consistent info2 _ _ _ _ _ c hc).1
    · rw [hrEq, hsrEq, (mk_rows_consistent info2 _ _ _ _ _ c hc).2,
        sub_self, abs_zero]
      norm_num

/-- Claim C1 witness: on a store whose margin data lags the market by a
day, the bulk row and the targeted row for code 600000 carry the same
label and the same surge score. -/
theorem c1_cross_consistency_witness :
    get_full_analysis_report c1store = some [c1row] ∧
    c1sig ∈ get_signals_for_codes c1store [some ("600000")] 60 ∧
    c1row.signal = c1sig.signal ∧
    |c1row.surgeScore - c1sig.surgeScore| < 1/1000000 := by
  have hb : get_full_analysis_report c1store = some [c1row] := by decide
  have hs : c1sig ∈ get_signals_for_codes c1store [some ("600000")] 60 :=
    by decide
  have h := c1_cross_consistency c1store [some ("600000")] [c1row] c1row
    c1sig hb (by decide) hs (by decide)
  exact ⟨hb, hs, h.1, h.2⟩

/-- Claim C7 witness: the empty-market-bar short-circuit at a concrete
store with an empty market table. -/
theorem c7_degraded_reads_witness :
    get_full_analysis_report c7wstore = some [] ∧
    get_signals_for_codes c7wstore [some ("600000")] 60 = [] := by
  have h := c7_degraded_reads.2.2.2.2 c7wstore (by rfl)
  exact ⟨h.1, h.2 [some ("600000")] 60⟩

end StockAnalysis
